import Mathlib

/-!
Shallow embedding of the task-management core of the To-do-list backend
(src/backend/apps/tasks: models.py, repositories.py, services.py, views.py).

The Django ORM state is modelled as an explicit in-memory `Store` holding the
task, category and subtask tables; each repository/service method becomes a
pure function taking (and, for mutations, returning) a `Store`.  `timezone.now()`
is passed as an explicit `DateTime` argument wherever the code calls it.
Database exceptions (Django `IntegrityError` on constraint violations) are
modelled with `Except DbError`.

The `user` column on `Task` and `Category` is the non-nullable owner foreign
key added by migrations/0003_add_user_to_models.py (models.py itself does not
restate the field, but every repository query filters on it and the migration
defines the column); `Subtask` has no user column and is owned through its
parent task, exactly as in the source.
-/

set_option maxRecDepth 8000

namespace Tasks

/-- Task.Status (models.py): pending / in_progress / completed. -/
inductive Status where
  | pending
  | in_progress
  | completed
deriving DecidableEq

/-- Task.Priority (models.py): low / medium / high. -/
inductive Priority where
  | low
  | medium
  | high
deriving DecidableEq

/-- A UTC instant as stored in a Django DateTimeField, at second precision
(the finest granularity the analysed code distinguishes). -/
structure DateTime where
  year : Nat
  month : Nat
  day : Nat
  hour : Nat
  minute : Nat
  second : Nat
deriving DecidableEq

/-- Chronological comparison of UTC instants: lexicographic on
(year, month, day, hour, minute, second), which is the order the database
uses for `due_date__gte` / `due_date__lte` comparisons. -/
def DateTime.leb (a b : DateTime) : Bool :=
  if a.year ≠ b.year then decide (a.year < b.year)
  else if a.month ≠ b.month then decide (a.month < b.month)
  else if a.day ≠ b.day then decide (a.day < b.day)
  else if a.hour ≠ b.hour then decide (a.hour < b.hour)
  else if a.minute ≠ b.minute then decide (a.minute < b.minute)
  else decide (a.second ≤ b.second)

/-- Task row (models.py `Task`).  `user` is the owner column from migration
0003; the audit fields created_at/updated_at are not modelled (no analysed
behaviour reads them). -/
structure Task where
  id : Nat
  title : String
  description : String
  category : Option Nat
  status : Status
  priority : Priority
  due_date : Option DateTime
  completed_at : Option DateTime
  user : Nat
deriving DecidableEq

/-- Category row (models.py `Category`); `user` from migration 0003. -/
structure Category where
  id : Nat
  name : String
  icon : String
  color : String
  user : Nat
deriving DecidableEq

/-- Subtask row (models.py `Subtask`); owned via the parent `task` id. -/
structure Subtask where
  id : Nat
  task : Nat
  title : String
  is_completed : Bool
  completed_at : Option DateTime
  order : Nat
deriving DecidableEq

/-- Task.mark_completed (models.py): status := completed, completed_at := now
(the `save()` is the store update done by callers via `Store.saveTask`). -/
def Task.mark_completed (t : Task) (now : DateTime) : Task :=
  { t with status := Status.completed, completed_at := some now }

/-- Task.mark_pending (models.py): status := pending, completed_at := None. -/
def Task.mark_pending (t : Task) : Task :=
  { t with status := Status.pending, completed_at := none }

/-- Task.is_completed property (models.py): status == completed. -/
def Task.is_completed (t : Task) : Bool :=
  t.status == Status.completed

/-- Subtask.toggle (models.py): flips is_completed and sets completed_at to
now when the new value is true, else clears it. -/
def Subtask.toggle (st : Subtask) (now : DateTime) : Subtask :=
  let c := !st.is_completed
  { st with is_completed := c, completed_at := if c then some now else none }

/-- The database state: one list per table, plus the auto-increment ids. -/
structure Store where
  tasks : List Task
  categories : List Category
  subtasks : List Subtask
  nextTaskId : Nat
  nextCategoryId : Nat
  nextSubtaskId : Nat
deriving DecidableEq

/-- Does a task row with this id exist (the FK target check for
`Subtask.task`)? -/
def Store.hasTask (s : Store) (tid : Nat) : Bool :=
  s.tasks.any (fun t => t.id == tid)

/-- Is the task row `tid` owned by user `u` (the `task__user` join used by
SubtaskRepository queries)? -/
def Store.ownsTask (s : Store) (tid u : Nat) : Bool :=
  s.tasks.any (fun t => t.id == tid && t.user == u)

/-- `task.save()`: write the (updated) row back over the row with its id. -/
def Store.saveTask (s : Store) (t : Task) : Store :=
  { s with tasks := s.tasks.map (fun x => if x.id == t.id then t else x) }

/-- `subtask.save()`: write the row back over the row with its id. -/
def Store.saveSubtask (s : Store) (st : Subtask) : Store :=
  { s with subtasks := s.subtasks.map (fun x => if x.id == st.id then st else x) }

/-- `task.delete()`: removes the task row; subtasks are CASCADE-deleted
(models.py: Subtask.task has on_delete=CASCADE). -/
def Store.eraseTask (s : Store) (tid : Nat) : Store :=
  { s with tasks := s.tasks.filter (fun t => t.id != tid),
           subtasks := s.subtasks.filter (fun st => st.task != tid) }

/-- Database-raised exception (Django IntegrityError on a constraint
violation: a NULL in the non-nullable user column, or a dangling FK). -/
inductive DbError where
  | integrityError
deriving DecidableEq

/-- Is an `Except` result a success?  (`Except.error` models a raised
exception escaping the repository call.) -/
def isOkE {ε α : Type} (e : Except ε α) : Bool :=
  match e with
  | Except.ok _ => true
  | Except.error _ => false

/-- TaskRepository (repositories.py lines 85-204): bound to `self.user`,
which is `None` when constructed with no argument. -/
structure TaskRepository where
  user : Option Nat

/-- TaskRepository.get_all: filter(user=self.user), or none() when unbound. -/
def TaskRepository.get_all (r : TaskRepository) (s : Store) : List Task :=
  match r.user with
  | some u => s.tasks.filter (fun t => t.user == u)
  | none => []

/-- TaskRepository.get_by_id: get(id=task_id, user=self.user), DoesNotExist
mapped to None; None when unbound. -/
def TaskRepository.get_by_id (r : TaskRepository) (s : Store) (tid : Nat) : Option Task :=
  match r.user with
  | some u => s.tasks.find? (fun t => t.id == tid && t.user == u)
  | none => none

/-- TaskRepository.get_by_status. -/
def TaskRepository.get_by_status (r : TaskRepository) (s : Store) (st : Status) : List Task :=
  match r.user with
  | some u => s.tasks.filter (fun t => t.status == st && t.user == u)
  | none => []

/-- TaskRepository.get_by_priority. -/
def TaskRepository.get_by_priority (r : TaskRepository) (s : Store) (p : Priority) : List Task :=
  match r.user with
  | some u => s.tasks.filter (fun t => t.priority == p && t.user == u)
  | none => []

/-- TaskRepository.get_by_category. -/
def TaskRepository.get_by_category (r : TaskRepository) (s : Store) (cid : Nat) : List Task :=
  match r.user with
  | some u => s.tasks.filter (fun t => t.category == some cid && t.user == u)
  | none => []

/-- TaskRepository.get_by_date_range: due_date__gte=start, due_date__lte=end,
user=self.user.  A SQL NULL due_date fails both comparisons, so tasks without
a due date are excluded. -/
def TaskRepository.get_by_date_range (r : TaskRepository) (s : Store) (a b : DateTime) : List Task :=
  match r.user with
  | some u =>
      s.tasks.filter (fun t =>
        match t.due_date with
        | some d => DateTime.leb a d && DateTime.leb d b && t.user == u
        | none => false)
  | none => []

/-- Is the first character list a leading segment of the second? -/
def prefixMatch : List Char → List Char → Bool
  | [], _ => true
  | _ :: _, [] => false
  | a :: as, b :: bs => a == b && prefixMatch as bs

/-- Does the first character list occur contiguously inside the second? -/
def infixMatch (n hay : List Char) : Bool :=
  match hay with
  | [] => n.isEmpty
  | c :: t => prefixMatch n (c :: t) || infixMatch n t

/-- Django `icontains`: case-insensitive substring match (SQL
`LIKE '%…%'` over lowercased text); an empty pattern matches every string. -/
def icontains (h n : String) : Bool :=
  if n = "" then true
  else infixMatch (n.data.map Char.toLower) (h.data.map Char.toLower)

/-- TaskRepository.search: Q(title__icontains) | Q(description__icontains),
conjoined with user=self.user. -/
def TaskRepository.search (r : TaskRepository) (s : Store) (q : String) : List Task :=
  match r.user with
  | some u =>
      s.tasks.filter (fun t =>
        (icontains t.title q || icontains t.description q) && t.user == u)
  | none => []

/-- TaskRepository.count. -/
def TaskRepository.count (r : TaskRepository) (s : Store) : Nat :=
  match r.user with
  | some u => (s.tasks.filter (fun t => t.user == u)).length
  | none => 0

/-- TaskRepository.count_by_status. -/
def TaskRepository.count_by_status (r : TaskRepository) (s : Store) (st : Status) : Nat :=
  match r.user with
  | some u => (s.tasks.filter (fun t => t.status == st && t.user == u)).length
  | none => 0

/-- TaskRepository.count_by_category. -/
def TaskRepository.count_by_category (r : TaskRepository) (s : Store) (cid : Nat) : Nat :=
  match r.user with
  | some u => (s.tasks.filter (fun t => t.category == some cid && t.user == u)).length
  | none => 0

/-- The create payload accepted for tasks (fields of TaskCreateSerializer:
title, description, category, priority, due_date; status starts pending
and completed_at NULL as the model defaults say). -/
structure TaskData where
  title : String
  description : String := ""
  category : Option Nat := none
  priority : Priority := Priority.medium
  due_date : Option DateTime := none
deriving DecidableEq

/-- TaskRepository.create: adds user=self.user to the row when bound; when
unbound the INSERT carries no user and the non-nullable user column from
migration 0003 makes the database raise IntegrityError. -/
def TaskRepository.create (r : TaskRepository) (s : Store) (d : TaskData) :
    Except DbError (Task × Store) :=
  match r.user with
  | some u =>
      let t : Task :=
        { id := s.nextTaskId, title := d.title, description := d.description,
          category := d.category, status := Status.pending, priority := d.priority,
          due_date := d.due_date, completed_at := none, user := u }
      Except.ok (t, { s with tasks := s.tasks ++ [t], nextTaskId := s.nextTaskId + 1 })
  | none => Except.error DbError.integrityError

/-- The partial-update payload reaching TaskRepository.update through
update_task (fields of TaskUpdateSerializer: title, description, category,
status, priority, due_date); each present entry is one `setattr`. -/
structure TaskPatch where
  title : Option String := none
  description : Option String := none
  category : Option (Option Nat) := none
  status : Option Status := none
  priority : Option Priority := none
  due_date : Option (Option DateTime) := none
deriving DecidableEq

/-- The `for key, value in data.items(): setattr(task, key, value)` loop of
TaskRepository.update. -/
def Task.applyPatch (t : Task) (p : TaskPatch) : Task :=
  { t with
    title := p.title.getD t.title,
    description := p.description.getD t.description,
    category := p.category.getD t.category,
    status := p.status.getD t.status,
    priority := p.priority.getD t.priority,
    due_date := p.due_date.getD t.due_date }

/-- TaskRepository.update: setattr loop then task.save(); no user check is
performed on the already-loaded entity. -/
def TaskRepository.update (_r : TaskRepository) (s : Store) (t : Task) (p : TaskPatch) :
    Task × Store :=
  let t2 := t.applyPatch p
  (t2, s.saveTask t2)

/-- TaskRepository.delete_by_id: scoped lookup, then delete; False if absent. -/
def TaskRepository.delete_by_id (r : TaskRepository) (s : Store) (tid : Nat) : Bool × Store :=
  match TaskRepository.get_by_id r s tid with
  | some t => (true, s.eraseTask t.id)
  | none => (false, s)

/-- CategoryRepository (repositories.py lines 15-48). -/
structure CategoryRepository where
  user : Option Nat

/-- CategoryRepository.get_all. -/
def CategoryRepository.get_all (r : CategoryRepository) (s : Store) : List Category :=
  match r.user with
  | some u => s.categories.filter (fun c => c.user == u)
  | none => []

/-- CategoryRepository.get_by_id. -/
def CategoryRepository.get_by_id (r : CategoryRepository) (s : Store) (cid : Nat) : Option Category :=
  match r.user with
  | some u => s.categories.find? (fun c => c.id == cid && c.user == u)
  | none => none

/-- The create payload for categories (CategorySerializer writable fields:
name, icon, color; model defaults for icon and color). -/
structure CategoryData where
  name : String
  icon : String := "📁"
  color : String := "#6b7280"
deriving DecidableEq

/-- CategoryRepository.create: same user handling as TaskRepository.create;
unbound insert violates the non-nullable user column. -/
def CategoryRepository.create (r : CategoryRepository) (s : Store) (d : CategoryData) :
    Except DbError (Category × Store) :=
  match r.user with
  | some u =>
      let c : Category :=
        { id := s.nextCategoryId, name := d.name, icon := d.icon, color := d.color, user := u }
      Except.ok (c, { s with categories := s.categories ++ [c],
                             nextCategoryId := s.nextCategoryId + 1 })
  | none => Except.error DbError.integrityError

/-- CategoryRepository.delete: category.delete() removes the row; every task
referencing it is detached because Task.category is on_delete=SET_NULL
(models.py line 56). -/
def CategoryRepository.delete (_r : CategoryRepository) (s : Store) (c : Category) :
    Bool × Store :=
  (true,
   { s with categories := s.categories.filter (fun x => x.id != c.id),
            tasks := s.tasks.map (fun t =>
              if t.category == some c.id then { t with category := none } else t) })

/-- SubtaskRepository (repositories.py lines 51-82). -/
structure SubtaskRepository where
  user : Option Nat

/-- SubtaskRepository.get_by_task: filter(task_id=task_id,
task__user=self.user) — the ownership condition is a join on the parent task. -/
def SubtaskRepository.get_by_task (r : SubtaskRepository) (s : Store) (tid : Nat) : List Subtask :=
  match r.user with
  | some u => s.subtasks.filter (fun st => st.task == tid && s.ownsTask st.task u)
  | none => []

/-- SubtaskRepository.get_by_id: get(id=subtask_id, task__user=self.user). -/
def SubtaskRepository.get_by_id (r : SubtaskRepository) (s : Store) (sid : Nat) : Option Subtask :=
  match r.user with
  | some u => s.subtasks.find? (fun st => st.id == sid && s.ownsTask st.task u)
  | none => none

/-- The create payload for subtasks (SubtaskCreateSerializer: title, order). -/
structure SubtaskData where
  title : String
  order : Nat := 0
deriving DecidableEq

/-- SubtaskRepository.create (repositories.py lines 71-72):
`self.model.objects.create(task_id=task_id, **data)`.  Unlike every other
repository operation it consults neither self.user nor the task's owner: the
row is inserted whenever a task with that id exists, and only a dangling
task id makes the database raise IntegrityError (FK violation). -/
def SubtaskRepository.create (_r : SubtaskRepository) (s : Store) (tid : Nat) (d : SubtaskData) :
    Except DbError (Subtask × Store) :=
  if s.hasTask tid then
    let st : Subtask :=
      { id := s.nextSubtaskId, task := tid, title := d.title,
        is_completed := false, completed_at := none, order := d.order }
    Except.ok (st, { s with subtasks := s.subtasks ++ [st],
                            nextSubtaskId := s.nextSubtaskId + 1 })
  else Except.error DbError.integrityError

/-- SubtaskRepository.delete. -/
def SubtaskRepository.delete (_r : SubtaskRepository) (s : Store) (st : Subtask) :
    Bool × Store :=
  (true, { s with subtasks := s.subtasks.filter (fun x => x.id != st.id) })

/-! ### Service layer (services.py) and the constructor calls in views.py -/

/-- TaskService holds the repository built in its constructor. -/
structure TaskService where
  repository : TaskRepository

/-- TaskService.__init__ (services.py lines 83-84): it takes no user
parameter, so self.repository = TaskRepository() is bound to no user. -/
def TaskService.init : TaskService :=
  ⟨⟨none⟩⟩

/-- CategoryService holds the repository built in its constructor. -/
structure CategoryService where
  repository : CategoryRepository

/-- CategoryService.__init__ (services.py lines 18-19): no user parameter. -/
def CategoryService.init : CategoryService :=
  ⟨⟨none⟩⟩

/-- SubtaskService holds the repository built in its constructor. -/
structure SubtaskService where
  repository : SubtaskRepository

/-- SubtaskService.__init__ (services.py lines 46-47): no user parameter. -/
def SubtaskService.init : SubtaskService :=
  ⟨⟨none⟩⟩

/-- Keyword parameter names (besides self) accepted by the three service
constructors in services.py: none at all. -/
def serviceInitParams : List String := []

/-- The keyword arguments each views.py get_service passes to the service
constructor: `TaskService(user=request.user)` and likewise for the other two
viewsets (views.py lines 33-34, 89-90, 149-150). -/
def getServiceKwargs : List String := ["user"]

/-- Python call semantics: a call matches a signature only when every keyword
argument names a declared parameter (otherwise TypeError). -/
def kwargsAccepted (params kwargs : List String) : Bool :=
  kwargs.all (fun k => params.contains k)

/-- The recognised filter keys of TaskService.get_all_tasks, each present or
absent in the request's filter dictionary (views.py drops the absent ones). -/
structure Filters where
  status : Option Status := none
  priority : Option Priority := none
  category : Option Nat := none
  search : Option String := none
deriving DecidableEq

/-- services.py line 103-104: `if status := filters.get('status'):
queryset = queryset.filter(status=status)`. -/
def statusStage (o : Option Status) (l : List Task) : List Task :=
  match o with
  | some st => l.filter (fun t => t.status == st)
  | none => l

/-- services.py line 105-106: the priority filter stage. -/
def priorityStage (o : Option Priority) (l : List Task) : List Task :=
  match o with
  | some p => l.filter (fun t => t.priority == p)
  | none => l

/-- services.py line 107-108: the category filter stage
(`queryset.filter(category_id=category)`). -/
def categoryStage (o : Option Nat) (l : List Task) : List Task :=
  match o with
  | some c => l.filter (fun t => t.category == some c)
  | none => l

/-- services.py lines 109-114: `queryset = queryset.filter(title__icontains=search)
| queryset.filter(description__icontains=search)`.  Combining two querysets
with `|` ORs their whole WHERE clauses; both operands extend the same
`queryset`, whose earlier conditions C therefore appear in both legs, so the
result rows are those with C AND (title-match OR description-match), in the
base queryset's order and without duplicates (single table, no joins).  The
walrus `if search := ...` skips the stage when the search string is empty
(falsy). -/
def searchStage (o : Option String) (l : List Task) : List Task :=
  match o with
  | some q =>
      if q = "" then l
      else l.filter (fun t => icontains t.title q || icontains t.description q)
  | none => l

/-- TaskService.get_all_tasks (services.py lines 86-116): start from the
user-scoped get_all queryset, then apply each recognised filter in turn. -/
def TaskService.get_all_tasks (svc : TaskService) (s : Store) (filters : Option Filters) :
    List Task :=
  let queryset := TaskRepository.get_all svc.repository s
  match filters with
  | none => queryset
  | some f => searchStage f.search (categoryStage f.category
      (priorityStage f.priority (statusStage f.status queryset)))

/-- TaskService.get_task_by_id. -/
def TaskService.get_task_by_id (svc : TaskService) (s : Store) (tid : Nat) : Option Task :=
  TaskRepository.get_by_id svc.repository s tid

/-- Python calendar.monthrange(year, month)[1]: the day count of the month,
calendar-aware (Gregorian leap rule). -/
def isLeapYear (y : Nat) : Bool :=
  (y % 4 == 0 && y % 100 != 0) || y % 400 == 0

/-- Days in a Gregorian month (monthrange's second component). -/
def daysInMonth (y m : Nat) : Nat :=
  if m == 2 then (if isLeapYear y then 29 else 28)
  else if m == 4 || m == 6 || m == 9 || m == 11 then 30
  else 31

/-- services.py line 138: `first_day = datetime(year, month, 1, tzinfo=utc)`. -/
def first_day (y m : Nat) : DateTime :=
  ⟨y, m, 1, 0, 0, 0⟩

/-- services.py line 139: `last_day = datetime(year, month,
monthrange(year, month)[1], 23, 59, 59, tzinfo=utc)`. -/
def last_day (y m : Nat) : DateTime :=
  ⟨y, m, daysInMonth y m, 23, 59, 59⟩

/-- strftime('%m') / ('%d'): two-digit zero-padded decimal. -/
def pad2 (n : Nat) : String :=
  if n < 10 then "0" ++ toString n else toString n

/-- strftime('%Y'): four-digit zero-padded year. -/
def pad4 (n : Nat) : String :=
  if n < 10 then "000" ++ toString n
  else if n < 100 then "00" ++ toString n
  else if n < 1000 then "0" ++ toString n
  else toString n

/-- services.py line 147: `task.due_date.strftime('%Y-%m-%d')`. -/
def dateKey (d : DateTime) : String :=
  pad4 d.year ++ "-" ++ pad2 d.month ++ "-" ++ pad2 d.day

/-- One step of the grouping loop body (services.py lines 148-150): append
the task to its date's bucket, creating the bucket at the end on first use
(Python dicts keep keys in first-insertion order). -/
def addToGroups (gs : List (String × List Task)) (k : String) (t : Task) :
    List (String × List Task) :=
  if gs.any (fun g => g.1 == k) then
    gs.map (fun g => if g.1 == k then (g.1, g.2 ++ [t]) else g)
  else gs ++ [(k, [t])]

/-- The `for task in tasks:` grouping loop of get_tasks_for_month
(services.py lines 145-150), including its `if task.due_date:` guard. -/
def groupByDate (ts : List Task) (gs : List (String × List Task)) :
    List (String × List Task) :=
  ts.foldl (fun acc t =>
    match t.due_date with
    | some d => addToGroups acc (dateKey d) t
    | none => acc) gs

/-- TaskService.get_tasks_for_month (services.py lines 134-152). -/
def TaskService.get_tasks_for_month (svc : TaskService) (s : Store) (y m : Nat) :
    List (String × List Task) :=
  groupByDate
    (TaskRepository.get_by_date_range svc.repository s (first_day y m) (last_day y m)) []

/-- TaskService.create_task: pass-through to the repository. -/
def TaskService.create_task (svc : TaskService) (s : Store) (d : TaskData) :
    Except DbError (Task × Store) :=
  TaskRepository.create svc.repository s d

/-- TaskService.update_task (services.py lines 171-186): scoped lookup, then
repository.update; None when absent. -/
def TaskService.update_task (svc : TaskService) (s : Store) (tid : Nat) (p : TaskPatch) :
    Option Task × Store :=
  match TaskRepository.get_by_id svc.repository s tid with
  | none => (none, s)
  | some t =>
      let r := TaskRepository.update svc.repository s t p
      (some r.1, r.2)

/-- TaskService.delete_task: pass-through to delete_by_id. -/
def TaskService.delete_task (svc : TaskService) (s : Store) (tid : Nat) : Bool × Store :=
  TaskRepository.delete_by_id svc.repository s tid

/-- TaskService.mark_task_completed (services.py lines 200-215): scoped
lookup, task.mark_completed() (which saves), return the task. -/
def TaskService.mark_task_completed (svc : TaskService) (s : Store) (tid : Nat)
    (now : DateTime) : Option Task × Store :=
  match TaskRepository.get_by_id svc.repository s tid with
  | none => (none, s)
  | some t =>
      let t2 := t.mark_completed now
      (some t2, s.saveTask t2)

/-- TaskService.mark_task_pending (services.py lines 217-232). -/
def TaskService.mark_task_pending (svc : TaskService) (s : Store) (tid : Nat) :
    Option Task × Store :=
  match TaskRepository.get_by_id svc.repository s tid with
  | none => (none, s)
  | some t =>
      let t2 := t.mark_pending
      (some t2, s.saveTask t2)

/-- TaskService.toggle_task_status (services.py lines 234-253). -/
def TaskService.toggle_task_status (svc : TaskService) (s : Store) (tid : Nat)
    (now : DateTime) : Option Task × Store :=
  match TaskRepository.get_by_id svc.repository s tid with
  | none => (none, s)
  | some t =>
      let t2 := if t.is_completed then t.mark_pending else t.mark_completed now
      (some t2, s.saveTask t2)

/-- The fixed shape returned by get_task_statistics: keys total, pending,
in_progress, completed. -/
structure TaskStatistics where
  total : Nat
  pending : Nat
  in_progress : Nat
  completed : Nat
deriving DecidableEq

/-- TaskService.get_task_statistics (services.py lines 255-267): one count()
plus three count_by_status() queries. -/
def TaskService.get_task_statistics (svc : TaskService) (s : Store) : TaskStatistics :=
  { total := TaskRepository.count svc.repository s,
    pending := TaskRepository.count_by_status svc.repository s Status.pending,
    in_progress := TaskRepository.count_by_status svc.repository s Status.in_progress,
    completed := TaskRepository.count_by_status svc.repository s Status.completed }

/-- CategoryService.get_all_categories. -/
def CategoryService.get_all_categories (svc : CategoryService) (s : Store) : List Category :=
  CategoryRepository.get_all svc.repository s

/-- CategoryService.get_category_by_id. -/
def CategoryService.get_category_by_id (svc : CategoryService) (s : Store) (cid : Nat) :
    Option Category :=
  CategoryRepository.get_by_id svc.repository s cid

/-- CategoryService.delete_category (services.py lines 36-40): scoped lookup,
False when absent, else repository.delete. -/
def CategoryService.delete_category (svc : CategoryService) (s : Store) (cid : Nat) :
    Bool × Store :=
  match CategoryRepository.get_by_id svc.repository s cid with
  | none => (false, s)
  | some c => CategoryRepository.delete svc.repository s c

/-- SubtaskService.get_subtasks_by_task. -/
def SubtaskService.get_subtasks_by_task (svc : SubtaskService) (s : Store) (tid : Nat) :
    List Subtask :=
  SubtaskRepository.get_by_task svc.repository s tid

/-- SubtaskService.create_subtask: pass-through (no ownership check). -/
def SubtaskService.create_subtask (svc : SubtaskService) (s : Store) (tid : Nat)
    (d : SubtaskData) : Except DbError (Subtask × Store) :=
  SubtaskRepository.create svc.repository s tid d

/-- SubtaskService.toggle_subtask (services.py lines 61-66): scoped lookup,
subtask.toggle() (which saves), return the subtask. -/
def SubtaskService.toggle_subtask (svc : SubtaskService) (s : Store) (sid : Nat)
    (now : DateTime) : Option Subtask × Store :=
  match SubtaskRepository.get_by_id svc.repository s sid with
  | none => (none, s)
  | some st =>
      let st2 := st.toggle now
      (some st2, s.saveSubtask st2)

/-! ### Helper lemmas -/

theorem statusStage_nil (o : Option Status) : statusStage o [] = [] := by
  cases o <;> simp [statusStage]

theorem priorityStage_nil (o : Option Priority) : priorityStage o [] = [] := by
  cases o <;> simp [priorityStage]

theorem categoryStage_nil (o : Option Nat) : categoryStage o [] = [] := by
  cases o <;> simp [categoryStage]

theorem searchStage_nil (o : Option String) : searchStage o [] = [] := by
  cases o with
  | none => rfl
  | some q =>
      simp only [searchStage]
      split <;> simp

/-! ### C2 -/

/-- C2: the three service constructors take no acting-user argument and bind
their repositories with user=None; consequently every service-layer read
(get_all_tasks for any filter dictionary, get_task_by_id, get_all_categories,
get_subtasks_by_task, get_task_statistics) returns the empty list, None, or
all-zero counts on every store, and the `Service(user=request.user)` calls in
the views pass a keyword argument no service constructor declares. -/
theorem services_constructed_unbound (s : Store) (filters : Option Filters)
    (tid cid sid : Nat) :
    TaskService.init.repository.user = none ∧
    CategoryService.init.repository.user = none ∧
    SubtaskService.init.repository.user = none ∧
    TaskService.get_all_tasks TaskService.init s filters = [] ∧
    TaskService.get_task_by_id TaskService.init s tid = none ∧
    CategoryService.get_all_categories CategoryService.init s = [] ∧
    CategoryService.get_category_by_id CategoryService.init s cid = none ∧
    SubtaskService.get_subtasks_by_task SubtaskService.init s sid = [] ∧
    TaskService.get_task_statistics TaskService.init s =
      { total := 0, pending := 0, in_progress := 0, completed := 0 } ∧
    kwargsAccepted serviceInitParams getServiceKwargs = false := by
  refine ⟨rfl, rfl, rfl, ?_, rfl, rfl, rfl, rfl, rfl, rfl⟩
  cases filters with
  | none => rfl
  | some f =>
      show searchStage f.search (categoryStage f.category
        (priorityStage f.priority (statusStage f.status []))) = []
      rw [statusStage_nil, priorityStage_nil, categoryStage_nil, searchStage_nil]

/-! ### C4 -/

/-- The spec's description of combined filtering: the acting user's tasks
satisfying the conjunction (logical AND) of every given filter, with
status/priority/category as exact matches and search as a case-insensitive
substring match over title or description.  Stated independently of the
implementation's staged query building, as the refinement target. -/
def matchesAllFilters (u : Nat) (f : Filters) (t : Task) : Bool :=
  t.user == u
  && (match f.status with | some st => t.status == st | none => true)
  && (match f.priority with | some p => t.priority == p | none => true)
  && (match f.category with | some c => t.category == some c | none => true)
  && (match f.search with
      | some q => icontains t.title q || icontains t.description q
      | none => true)

theorem icontains_empty (h : String) : icontains h "" = true := rfl

theorem statusStage_filter (o : Option Status) (l : List Task) :
    statusStage o l =
      l.filter (fun t => match o with | some st => t.status == st | none => true) := by
  cases o <;> simp [statusStage]

theorem priorityStage_filter (o : Option Priority) (l : List Task) :
    priorityStage o l =
      l.filter (fun t => match o with | some p => t.priority == p | none => true) := by
  cases o <;> simp [priorityStage]

theorem categoryStage_filter (o : Option Nat) (l : List Task) :
    categoryStage o l =
      l.filter (fun t => match o with | some c => t.category == some c | none => true) := by
  cases o <;> simp [categoryStage]

theorem searchStage_filter (o : Option String) (l : List Task) :
    searchStage o l =
      l.filter (fun t =>
        match o with
        | some q => icontains t.title q || icontains t.description q
        | none => true) := by
  cases o with
  | none => simp [searchStage]
  | some q =>
      simp only [searchStage]
      split
      · next hq =>
          subst hq
          simp [icontains_empty]
      · rfl

/-- C4: for every call of get_all_tasks on a repository bound to acting user
u and any filter dictionary over the recognised keys {status, priority,
category, search}, the returned tasks are exactly the user's tasks satisfying
the logical AND of all given filters (exact matches for status, priority and
category; case-insensitive title-or-description substring match for search).
The queryset union built for search does not drop the other filters, because
both united legs extend the already-filtered queryset. -/
theorem get_all_tasks_filters_conjunction (u : Nat) (s : Store) (f : Filters) :
    TaskService.get_all_tasks ⟨⟨some u⟩⟩ s (some f) =
      s.tasks.filter (matchesAllFilters u f) := by
  show searchStage f.search (categoryStage f.category (priorityStage f.priority
    (statusStage f.status (s.tasks.filter (fun t => t.user == u))))) = _
  rw [statusStage_filter, priorityStage_filter, categoryStage_filter, searchStage_filter,
      List.filter_filter, List.filter_filter, List.filter_filter, List.filter_filter]
  apply List.filter_congr
  intro t _
  simp only [matchesAllFilters, Bool.and_assoc, Bool.and_comm, Bool.and_left_comm]

/-! ### C6 -/

theorem length_filter_status_partition (u : Nat) (l : List Task) :
    (l.filter (fun t => t.user == u)).length =
      (l.filter (fun t => t.status == Status.pending && t.user == u)).length +
      (l.filter (fun t => t.status == Status.in_progress && t.user == u)).length +
      (l.filter (fun t => t.status == Status.completed && t.user == u)).length := by
  induction l with
  | nil => rfl
  | cons hd tl ih =>
      cases hs : hd.status <;> cases hu : hd.user == u <;>
        simp [List.filter_cons, hs, hu, ih] <;> omega

/-- C6: on a repository bound to acting user u, get_task_statistics returns
the fixed shape {total, pending, in_progress, completed} where total is the
user's task count and each status key counts that user's tasks with that
status; consequently the three status tallies always sum to the total. -/
theorem get_task_statistics_counts (u : Nat) (s : Store) :
    TaskService.get_task_statistics ⟨⟨some u⟩⟩ s =
      { total := (s.tasks.filter (fun t => t.user == u)).length,
        pending := (s.tasks.filter (fun t => t.status == Status.pending && t.user == u)).length,
        in_progress :=
          (s.tasks.filter (fun t => t.status == Status.in_progress && t.user == u)).length,
        completed :=
          (s.tasks.filter (fun t => t.status == Status.completed && t.user == u)).length } ∧
    (TaskService.get_task_statistics ⟨⟨some u⟩⟩ s).total =
      (TaskService.get_task_statistics ⟨⟨some u⟩⟩ s).pending +
      (TaskService.get_task_statistics ⟨⟨some u⟩⟩ s).in_progress +
      (TaskService.get_task_statistics ⟨⟨some u⟩⟩ s).completed :=
  ⟨rfl, length_filter_status_partition u s.tasks⟩

/-- A small concrete task row, for the scenario stores below. -/
def mkTask (tid : Nat) (st : Status) (u : Nat) : Task :=
  { id := tid, title := "t", description := "", category := none, status := st,
    priority := Priority.medium, due_date := none,
    completed_at := if st = Status.completed then some ⟨2024, 1, 1, 12, 0, 0⟩ else none,
    user := u }

/-- The spec's statistics scenario: after creating 3 tasks (2 pending,
1 completed) the tally is {total: 3, pending: 2, in_progress: 0,
completed: 1}. -/
theorem statistics_scenario :
    TaskService.get_task_statistics ⟨⟨some 1⟩⟩
      { tasks := [mkTask 1 Status.pending 1, mkTask 2 Status.pending 1,
                  mkTask 3 Status.completed 1],
        categories := [], subtasks := [],
        nextTaskId := 4, nextCategoryId := 1, nextSubtaskId := 1 } =
      { total := 3, pending := 2, in_progress := 0, completed := 1 } := by
  decide

/-- Concrete check of the combination the spec flags as an open question:
with status=pending and search=buy together, a completed task whose title
also matches the search does NOT appear — search intersects with the other
filters rather than overriding them. -/
theorem search_does_not_override_status_filter :
    TaskService.get_all_tasks ⟨⟨some 1⟩⟩
      { tasks := [{ mkTask 1 Status.pending 1 with title := "Buy milk" },
                  { mkTask 2 Status.completed 1 with title := "Buy beer" }],
        categories := [], subtasks := [],
        nextTaskId := 3, nextCategoryId := 1, nextSubtaskId := 1 }
      (some { status := some Status.pending, search := some "buy" }) =
      [{ mkTask 1 Status.pending 1 with title := "Buy milk" }] := by
  decide

/-! ### C5 -/

/-- The pair (k, t) occurs in a grouped mapping: some bucket keyed k holds t. -/
def pairMem (gs : List (String × List Task)) (k : String) (t : Task) : Prop :=
  ∃ l, (k, l) ∈ gs ∧ t ∈ l

theorem pairMem_nil (k : String) (t : Task) : ¬ pairMem [] k t := by
  simp [pairMem]

theorem pairMem_addToGroups (gs : List (String × List Task)) (k0 : String) (t0 : Task)
    (k : String) (t : Task) :
    pairMem (addToGroups gs k0 t0) k t ↔ pairMem gs k t ∨ (k = k0 ∧ t = t0) := by
  unfold addToGroups
  by_cases h : gs.any (fun g => g.1 == k0)
  · rw [if_pos h]
    constructor
    · rintro ⟨l, hl, ht⟩
      rw [List.mem_map] at hl
      obtain ⟨g, hg, hfg⟩ := hl
      by_cases hk : g.1 == k0
      · rw [if_pos hk] at hfg
        injection hfg with h1 h2
        subst h2
        rw [List.mem_append] at ht
        rcases ht with ht | ht
        · exact Or.inl ⟨g.2, by rw [← h1]; exact hg, ht⟩
        · rw [List.mem_singleton] at ht
          exact Or.inr ⟨h1 ▸ (beq_iff_eq.mp hk), ht⟩
      · rw [if_neg hk] at hfg
        exact Or.inl ⟨l, hfg ▸ hg, ht⟩
    · rintro (⟨l, hl, ht⟩ | ⟨hk, ht⟩)
      · by_cases hkk : k == k0
        · exact ⟨l ++ [t0], List.mem_map.mpr ⟨(k, l), hl, by simp [hkk]⟩,
                 List.mem_append_left _ ht⟩
        · exact ⟨l, List.mem_map.mpr ⟨(k, l), hl, by simp [hkk]⟩, ht⟩
      · rw [hk, ht]
        rw [List.any_eq_true] at h
        obtain ⟨g, hg, hgk⟩ := h
        exact ⟨g.2 ++ [t0],
               List.mem_map.mpr ⟨g, hg, by simp [hgk, beq_iff_eq.mp hgk]⟩,
               List.mem_append_right _ (List.mem_singleton_self _)⟩
  · rw [if_neg h]
    constructor
    · rintro ⟨l, hl, ht⟩
      rw [List.mem_append] at hl
      rcases hl with hl | hl
      · exact Or.inl ⟨l, hl, ht⟩
      · rw [List.mem_singleton] at hl
        injection hl with h1 h2
        subst h2
        rw [List.mem_singleton] at ht
        exact Or.inr ⟨h1, ht⟩
    · rintro (⟨l, hl, ht⟩ | ⟨hk, ht⟩)
      · exact ⟨l, List.mem_append_left _ hl, ht⟩
      · subst hk; subst ht
        exact ⟨[t], List.mem_append_right _ (List.mem_singleton_self _),
               List.mem_singleton_self _⟩

theorem groupByDate_cons (hd : Task) (tl : List Task) (gs : List (String × List Task)) :
    groupByDate (hd :: tl) gs =
      groupByDate tl (match hd.due_date with
        | some d => addToGroups gs (dateKey d) hd
        | none => gs) := rfl

theorem pairMem_groupByDate (ts : List Task) :
    ∀ gs k t, pairMem (groupByDate ts gs) k t ↔
      pairMem gs k t ∨ ∃ d, t ∈ ts ∧ t.due_date = some d ∧ dateKey d = k := by
  induction ts with
  | nil =>
      intro gs k t
      simp [groupByDate]
  | cons hd tl ih =>
      intro gs k t
      rw [groupByDate_cons]
      cases hdd : hd.due_date with
      | none =>
          rw [ih]
          constructor
          · rintro (hg | ⟨d, htl, hsome, hk⟩)
            · exact Or.inl hg
            · exact Or.inr ⟨d, List.mem_cons_of_mem _ htl, hsome, hk⟩
          · rintro (hg | ⟨d, hmem, hsome, hk⟩)
            · exact Or.inl hg
            · rcases List.mem_cons.mp hmem with heq | htl
              · subst heq; rw [hdd] at hsome; exact absurd hsome (by simp)
              · exact Or.inr ⟨d, htl, hsome, hk⟩
      | some d0 =>
          rw [ih, pairMem_addToGroups]
          constructor
          · rintro ((hg | ⟨hk, htt⟩) | ⟨d, htl, hsome, hk⟩)
            · exact Or.inl hg
            · subst htt
              exact Or.inr ⟨d0, List.mem_cons_self _ _, hdd, hk.symm⟩
            · exact Or.inr ⟨d, List.mem_cons_of_mem _ htl, hsome, hk⟩
          · rintro (hg | ⟨d, hmem, hsome, hk⟩)
            · exact Or.inl (Or.inl hg)
            · rcases List.mem_cons.mp hmem with heq | htl
              · subst heq
                rw [hdd] at hsome
                injection hsome with hd0
                subst hd0
                exact Or.inl (Or.inr ⟨hk.symm, rfl⟩)
              · exact Or.inr ⟨d, htl, hsome, hk⟩

/-- C5: on a repository bound to acting user u, get_tasks_for_month groups
exactly the user's tasks whose due_date lies inclusively between the first
instant of the month (UTC) and 23:59:59 UTC of the calendar-aware last day
(daysInMonth: 28-31 by month and leap year); tasks without a due_date never
appear, and each included task is keyed by the zero-padded ISO date string
YYYY-MM-DD of its due_date. -/
theorem get_tasks_for_month_characterization (u : Nat) (s : Store) (y m : Nat)
    (k : String) (t : Task) :
    pairMem (TaskService.get_tasks_for_month ⟨⟨some u⟩⟩ s y m) k t ↔
      t ∈ s.tasks ∧ t.user = u ∧
      ∃ d, t.due_date = some d ∧
        DateTime.leb (first_day y m) d = true ∧
        DateTime.leb d (last_day y m) = true ∧
        dateKey d = k := by
  unfold TaskService.get_tasks_for_month
  rw [pairMem_groupByDate]
  rw [or_iff_right (pairMem_nil k t)]
  constructor
  · rintro ⟨d, htr, hsome, hk⟩
    have htr' := htr
    rw [show TaskRepository.get_by_date_range ⟨some u⟩ s (first_day y m) (last_day y m) =
        s.tasks.filter (fun t => match t.due_date with
          | some d => DateTime.leb (first_day y m) d && DateTime.leb d (last_day y m) &&
              t.user == u
          | none => false) from rfl, List.mem_filter] at htr'
    obtain ⟨hts, hcond⟩ := htr'
    rw [hsome] at hcond
    simp only [Bool.and_eq_true, beq_iff_eq] at hcond
    exact ⟨hts, hcond.2, d, hsome, hcond.1.1, hcond.1.2, hk⟩
  · rintro ⟨hts, hu, d, hsome, h1, h2, hk⟩
    refine ⟨d, ?_, hsome, hk⟩
    rw [show TaskRepository.get_by_date_range ⟨some u⟩ s (first_day y m) (last_day y m) =
        s.tasks.filter (fun t => match t.due_date with
          | some d => DateTime.leb (first_day y m) d && DateTime.leb d (last_day y m) &&
              t.user == u
          | none => false) from rfl, List.mem_filter]
    refine ⟨hts, ?_⟩
    rw [hsome]
    simp only [Bool.and_eq_true, beq_iff_eq]
    exact ⟨⟨h1, h2⟩, hu⟩

/-- The spec's leap-year scenario: for (2024, 2) the query range is bounded
at 2024-02-29T23:59:59Z (not the 28th), and a task due 2024-02-29 is included
under the key "2024-02-29". -/
theorem calendar_leap_year_scenario :
    last_day 2024 2 = ⟨2024, 2, 29, 23, 59, 59⟩ ∧
    TaskService.get_tasks_for_month ⟨⟨some 1⟩⟩
      { tasks := [{ mkTask 1 Status.pending 1 with due_date := some ⟨2024, 2, 29, 10, 0, 0⟩ }],
        categories := [], subtasks := [],
        nextTaskId := 2, nextCategoryId := 1, nextSubtaskId := 1 } 2024 2 =
      [("2024-02-29", [{ mkTask 1 Status.pending 1 with due_date := some ⟨2024, 2, 29, 10, 0, 0⟩ }])] := by
  constructor
  · decide
  · decide

/-! ### C8 -/

/-- A saved row that satisfies the scoped-lookup predicate is what a
subsequent scoped lookup finds: writing `t2` over every row with its id makes
`find?` return `t2` whenever the lookup succeeded before the write. -/
theorem find?_saveTask (u tid : Nat) (t2 : Task) (hid : t2.id = tid) (hu : t2.user = u) :
    ∀ l : List Task, (l.find? (fun x => x.id == tid && x.user == u)).isSome = true →
      (l.map (fun x => if x.id == t2.id then t2 else x)).find?
        (fun x => x.id == tid && x.user == u) = some t2 := by
  intro l
  induction l with
  | nil => intro h; simp at h
  | cons hd tl ih =>
      intro h
      by_cases hhd : hd.id == t2.id
      · simp only [List.map_cons, if_pos hhd]
        exact List.find?_cons_of_pos _ (by simp [hid, hu])
      · have hp : ¬ ((fun x : Task => x.id == tid && x.user == u) hd) = true := by
          intro hcon
          simp only [Bool.and_eq_true, beq_iff_eq] at hcon
          exact hhd (by simp [hcon.1, hid])
        rw [@List.find?_cons_of_neg Task (fun x => x.id == tid && x.user == u) hd tl hp] at h
        simp only [List.map_cons, if_neg hhd]
        rw [@List.find?_cons_of_neg Task (fun x => x.id == tid && x.user == u) hd
            (tl.map (fun x => if x.id == t2.id then t2 else x)) hp]
        exact ih h

/-- One concrete task store used by several witnesses below. -/
def oneTaskStore : Store :=
  { tasks := [mkTask 1 Status.pending 1], categories := [], subtasks := [],
    nextTaskId := 2, nextCategoryId := 1, nextSubtaskId := 1 }

/-- C8: for every task of the acting user found by the scoped lookup,
mark_task_completed followed by mark_task_pending on its id returns a task
with status=pending and completed_at=null, and the store afterwards holds
that same row under the id. -/
theorem mark_completed_then_pending (u : Nat) (s : Store) (tid : Nat) (t : Task)
    (n1 : DateTime)
    (h : TaskRepository.get_by_id ⟨some u⟩ s tid = some t) :
    ∃ t', (TaskService.mark_task_pending ⟨⟨some u⟩⟩
            (TaskService.mark_task_completed ⟨⟨some u⟩⟩ s tid n1).2 tid).1 = some t' ∧
      t'.status = Status.pending ∧ t'.completed_at = none ∧
      TaskRepository.get_by_id ⟨some u⟩
        (TaskService.mark_task_pending ⟨⟨some u⟩⟩
          (TaskService.mark_task_completed ⟨⟨some u⟩⟩ s tid n1).2 tid).2 tid = some t' := by
  have hfind : s.tasks.find? (fun x => x.id == tid && x.user == u) = some t := h
  have hp := List.find?_some hfind
  simp only [Bool.and_eq_true, beq_iff_eq] at hp
  obtain ⟨htid, htu⟩ := hp
  have hmc : TaskService.mark_task_completed ⟨⟨some u⟩⟩ s tid n1 =
      (some (t.mark_completed n1), s.saveTask (t.mark_completed n1)) := by
    unfold TaskService.mark_task_completed
    rw [h]
  have h2 : (TaskService.mark_task_completed ⟨⟨some u⟩⟩ s tid n1).2 =
      s.saveTask (t.mark_completed n1) := by rw [hmc]
  have hfind1 : TaskRepository.get_by_id ⟨some u⟩ (s.saveTask (t.mark_completed n1)) tid =
      some (t.mark_completed n1) :=
    find?_saveTask u tid (t.mark_completed n1)
      (show (t.mark_completed n1).id = tid from htid)
      (show (t.mark_completed n1).user = u from htu)
      s.tasks (by rw [hfind]; rfl)
  have hmp : TaskService.mark_task_pending ⟨⟨some u⟩⟩ (s.saveTask (t.mark_completed n1)) tid =
      (some (t.mark_completed n1).mark_pending,
       (s.saveTask (t.mark_completed n1)).saveTask (t.mark_completed n1).mark_pending) := by
    unfold TaskService.mark_task_pending
    rw [hfind1]
  refine ⟨(t.mark_completed n1).mark_pending, ?_, rfl, rfl, ?_⟩
  · rw [h2, hmp]
  · rw [h2, hmp]
    exact find?_saveTask u tid (t.mark_completed n1).mark_pending
      (show ((t.mark_completed n1).mark_pending).id = tid from htid)
      (show ((t.mark_completed n1).mark_pending).user = u from htu)
      _ (by rw [show (s.saveTask (t.mark_completed n1)).tasks.find?
            (fun x => x.id == tid && x.user == u) =
            some (t.mark_completed n1) from hfind1]; rfl)

/-- Witness for C8: the round trip on a concrete pending task of user 1. -/
theorem mark_completed_then_pending_witness :
    ∃ t', (TaskService.mark_task_pending ⟨⟨some 1⟩⟩
            (TaskService.mark_task_completed ⟨⟨some 1⟩⟩ oneTaskStore 1
              ⟨2024, 3, 1, 9, 0, 0⟩).2 1).1 = some t' ∧
      t'.status = Status.pending ∧ t'.completed_at = none ∧
      TaskRepository.get_by_id ⟨some 1⟩
        (TaskService.mark_task_pending ⟨⟨some 1⟩⟩
          (TaskService.mark_task_completed ⟨⟨some 1⟩⟩ oneTaskStore 1
            ⟨2024, 3, 1, 9, 0, 0⟩).2 1).2 1 = some t' :=
  mark_completed_then_pending 1 oneTaskStore 1 (mkTask 1 Status.pending 1)
    ⟨2024, 3, 1, 9, 0, 0⟩ (by decide)

/-! ### C3 -/

/-- The completion invariant of the spec: completed_at is non-null iff the
status is completed.  (is_completed is definitionally status == completed,
models.py lines 102-105.) -/
def completionInv (t : Task) : Prop :=
  t.completed_at.isSome = true ↔ t.status = Status.completed

instance (t : Task) : Decidable (completionInv t) :=
  inferInstanceAs (Decidable (t.completed_at.isSome = true ↔ t.status = Status.completed))

theorem completionInv_mark_completed (t : Task) (n : DateTime) :
    completionInv (t.mark_completed n) := by
  simp [completionInv, Task.mark_completed]

theorem completionInv_mark_pending (t : Task) :
    completionInv t.mark_pending := by
  simp [completionInv, Task.mark_pending]

/-- Membership after a save: each row is the written one or an original. -/
theorem mem_saveTask (s : Store) (t2 x : Task) (hx : x ∈ (s.saveTask t2).tasks) :
    x = t2 ∨ x ∈ s.tasks := by
  simp only [Store.saveTask, List.mem_map] at hx
  obtain ⟨a, ha, hfa⟩ := hx
  by_cases hc : a.id == t2.id
  · rw [if_pos hc] at hfa
    exact Or.inl hfa.symm
  · rw [if_neg hc] at hfa
    exact Or.inr (hfa ▸ ha)

/-- C3 counterexample: update_task with the partial field dictionary
{status: completed} on a pending task of the acting user returns a task with
status=completed and completed_at=null — the claimed invariant fails after
this operation. -/
theorem update_task_breaks_completion_inv :
    (TaskService.update_task ⟨⟨some 1⟩⟩ oneTaskStore 1
        { status := some Status.completed }).1 =
      some { mkTask 1 Status.pending 1 with status := Status.completed } ∧
    ¬ completionInv { mkTask 1 Status.pending 1 with status := Status.completed } := by
  constructor
  · decide
  · decide

/-- C3 amended: the completion invariant is an invariant of the dedicated
transitions — after mark_task_completed, mark_task_pending or
toggle_task_status every stored task still satisfies it, and so does every
returned task (update_task is excluded: an arbitrary field dictionary can
set status without adjusting completed_at). -/
theorem transitions_preserve_completion_inv (u : Nat) (s : Store) (tid : Nat)
    (n : DateTime) (h : ∀ t ∈ s.tasks, completionInv t) :
    (∀ t ∈ (TaskService.mark_task_completed ⟨⟨some u⟩⟩ s tid n).2.tasks, completionInv t) ∧
    (∀ t ∈ (TaskService.mark_task_pending ⟨⟨some u⟩⟩ s tid).2.tasks, completionInv t) ∧
    (∀ t ∈ (TaskService.toggle_task_status ⟨⟨some u⟩⟩ s tid n).2.tasks, completionInv t) ∧
    (∀ r, (TaskService.mark_task_completed ⟨⟨some u⟩⟩ s tid n).1 = some r → completionInv r) ∧
    (∀ r, (TaskService.mark_task_pending ⟨⟨some u⟩⟩ s tid).1 = some r → completionInv r) ∧
    (∀ r, (TaskService.toggle_task_status ⟨⟨some u⟩⟩ s tid n).1 = some r → completionInv r) := by
  have hif : ∀ (t0 : Task), completionInv
      (if t0.is_completed then t0.mark_pending else t0.mark_completed n) := by
    intro t0
    by_cases hc : t0.is_completed
    · rw [if_pos hc]; exact completionInv_mark_pending t0
    · rw [if_neg hc]; exact completionInv_mark_completed t0 n
  refine ⟨?_, ?_, ?_, ?_, ?_, ?_⟩
  · unfold TaskService.mark_task_completed
    cases hres : TaskRepository.get_by_id ⟨some u⟩ s tid with
    | none => exact h
    | some t0 =>
        intro x hx
        rcases mem_saveTask s _ x hx with rfl | hx'
        · exact completionInv_mark_completed t0 n
        · exact h x hx'
  · unfold TaskService.mark_task_pending
    cases hres : TaskRepository.get_by_id ⟨some u⟩ s tid with
    | none => exact h
    | some t0 =>
        intro x hx
        rcases mem_saveTask s _ x hx with rfl | hx'
        · exact completionInv_mark_pending t0
        · exact h x hx'
  · unfold TaskService.toggle_task_status
    cases hres : TaskRepository.get_by_id ⟨some u⟩ s tid with
    | none => exact h
    | some t0 =>
        intro x hx
        rcases mem_saveTask s _ x hx with rfl | hx'
        · exact hif t0
        · exact h x hx'
  · unfold TaskService.mark_task_completed
    cases hres : TaskRepository.get_by_id ⟨some u⟩ s tid with
    | none => intro r hr; cases hr
    | some t0 =>
        intro r hr
        cases hr
        exact completionInv_mark_completed t0 n
  · unfold TaskService.mark_task_pending
    cases hres : TaskRepository.get_by_id ⟨some u⟩ s tid with
    | none => intro r hr; cases hr
    | some t0 =>
        intro r hr
        cases hr
        exact completionInv_mark_pending t0
  · unfold TaskService.toggle_task_status
    cases hres : TaskRepository.get_by_id ⟨some u⟩ s tid with
    | none => intro r hr; cases hr
    | some t0 =>
        intro r hr
        cases hr
        exact hif t0

/-- Witness for the amended C3 on a concrete invariant-satisfying store. -/
theorem transitions_preserve_completion_inv_witness :
    (∀ t ∈ oneTaskStore.tasks, completionInv t) ∧
    (∀ t ∈ (TaskService.toggle_task_status ⟨⟨some 1⟩⟩ oneTaskStore 1
        ⟨2024, 5, 5, 5, 5, 5⟩).2.tasks, completionInv t) :=
  ⟨by decide,
   (transitions_preserve_completion_inv 1 oneTaskStore 1 ⟨2024, 5, 5, 5, 5, 5⟩
      (by decide)).2.2.1⟩

/-! ### C7 -/

/-- An incomplete subtask with no completion timestamp (satisfying the
mirror invariant), used by the C7 witness. -/
def plainSubtask : Subtask :=
  { id := 1, task := 1, title := "s", is_completed := false,
    completed_at := none, order := 0 }

/-- C7 counterexample: a subtask completed at 2024-01-01 12:00:00, toggled
twice at two later instants, does not return to its original state — its
completed_at ends as the second toggle's timestamp, not the original one. -/
theorem subtask_double_toggle_not_roundtrip :
    Subtask.toggle (Subtask.toggle
        { id := 1, task := 1, title := "s", is_completed := true,
          completed_at := some ⟨2024, 1, 1, 12, 0, 0⟩, order := 0 }
        ⟨2024, 1, 2, 12, 0, 0⟩) ⟨2024, 1, 3, 12, 0, 0⟩ ≠
      { id := 1, task := 1, title := "s", is_completed := true,
        completed_at := some ⟨2024, 1, 1, 12, 0, 0⟩, order := 0 } := by
  decide

/-- C7 amended: toggling twice always restores is_completed and — given the
mirror invariant completed_at-nonnull-iff-is_completed — preserves whether
completed_at is null; an initially incomplete subtask is restored exactly,
while an initially completed one gets completed_at refreshed to the second
toggle's timestamp rather than its original value. -/
theorem subtask_double_toggle (st : Subtask) (n1 n2 : DateTime)
    (hinv : st.completed_at.isSome = st.is_completed) :
    (Subtask.toggle (Subtask.toggle st n1) n2).is_completed = st.is_completed ∧
    (Subtask.toggle (Subtask.toggle st n1) n2).completed_at.isSome =
      st.completed_at.isSome ∧
    (st.is_completed = false → Subtask.toggle (Subtask.toggle st n1) n2 = st) ∧
    (st.is_completed = true →
      (Subtask.toggle (Subtask.toggle st n1) n2).completed_at = some n2) := by
  obtain ⟨sid, stask, stitle, sic, sca, sord⟩ := st
  cases sic
  · have hnone : sca = none := by
      cases sca
      · rfl
      · simp at hinv
    subst hnone
    exact ⟨rfl, rfl, fun _ => rfl, fun hcon => Bool.noConfusion hcon⟩
  · refine ⟨rfl, ?_, fun hcon => Bool.noConfusion hcon, fun _ => rfl⟩
    simp only at hinv
    rw [hinv]
    rfl

/-- Witness for the amended C7 at a concrete incomplete subtask. -/
theorem subtask_double_toggle_witness :
    (Subtask.toggle (Subtask.toggle plainSubtask ⟨2024, 1, 2, 0, 0, 0⟩)
        ⟨2024, 1, 3, 0, 0, 0⟩).is_completed = plainSubtask.is_completed ∧
    (Subtask.toggle (Subtask.toggle plainSubtask ⟨2024, 1, 2, 0, 0, 0⟩)
        ⟨2024, 1, 3, 0, 0, 0⟩).completed_at.isSome = plainSubtask.completed_at.isSome ∧
    (plainSubtask.is_completed = false →
      Subtask.toggle (Subtask.toggle plainSubtask ⟨2024, 1, 2, 0, 0, 0⟩)
        ⟨2024, 1, 3, 0, 0, 0⟩ = plainSubtask) ∧
    (plainSubtask.is_completed = true →
      (Subtask.toggle (Subtask.toggle plainSubtask ⟨2024, 1, 2, 0, 0, 0⟩)
        ⟨2024, 1, 3, 0, 0, 0⟩).completed_at = some ⟨2024, 1, 3, 0, 0, 0⟩) :=
  subtask_double_toggle plainSubtask ⟨2024, 1, 2, 0, 0, 0⟩ ⟨2024, 1, 3, 0, 0, 0⟩ rfl

/-! ### C1 -/

/-- C1 counterexample: a subtask repository acting for user 2, run against a
store whose only task (id 1) belongs to user 1.  create on the non-owned id 1
succeeds — writing a subtask onto another user's task — while create on the
nonexistent id 99 raises IntegrityError: the non-owned id does not behave
like a nonexistent id. -/
theorem subtask_create_ignores_ownership :
    isOkE (SubtaskRepository.create ⟨some 2⟩ oneTaskStore 1 { title := "x" }) = true ∧
    isOkE (SubtaskRepository.create ⟨some 2⟩ oneTaskStore 99 { title := "x" }) = false := by
  constructor
  · decide
  · decide

/-- C1 amended: every read and id-based lookup is ownership-filtered at the
query level — the three get_by_id operations return None whenever no row with
that id is owned by (for subtasks: reachable through a task of) the acting
user, identically to a nonexistent id, and get_all returns only the acting
user's rows — but SubtaskRepository.create is the exception: it performs no
ownership check, succeeding on any existing task id whatever its owner and
failing only on a nonexistent one. -/
theorem ownership_scoping (u : Nat) (s : Store) (xid : Nat) (d : SubtaskData) :
    ((∀ t ∈ s.tasks, t.id = xid → t.user ≠ u) →
      TaskRepository.get_by_id ⟨some u⟩ s xid = none) ∧
    (∀ t, TaskRepository.get_by_id ⟨some u⟩ s xid = some t → t.id = xid ∧ t.user = u) ∧
    ((∀ c ∈ s.categories, c.id = xid → c.user ≠ u) →
      CategoryRepository.get_by_id ⟨some u⟩ s xid = none) ∧
    ((∀ st ∈ s.subtasks, st.id = xid → s.ownsTask st.task u = false) →
      SubtaskRepository.get_by_id ⟨some u⟩ s xid = none) ∧
    (∀ t ∈ TaskRepository.get_all ⟨some u⟩ s, t.user = u) ∧
    (s.hasTask xid = false →
      SubtaskRepository.create ⟨some u⟩ s xid d = Except.error DbError.integrityError) ∧
    (s.hasTask xid = true → isOkE (SubtaskRepository.create ⟨some u⟩ s xid d) = true) := by
  refine ⟨?_, ?_, ?_, ?_, ?_, ?_, ?_⟩
  · intro hnone
    show s.tasks.find? (fun t => t.id == xid && t.user == u) = none
    rw [List.find?_eq_none]
    intro x hx hcon
    simp only [Bool.and_eq_true, beq_iff_eq] at hcon
    exact hnone x hx hcon.1 hcon.2
  · intro t ht
    have hp := List.find?_some
      (show s.tasks.find? (fun t => t.id == xid && t.user == u) = some t from ht)
    simp only [Bool.and_eq_true, beq_iff_eq] at hp
    exact hp
  · intro hnone
    show s.categories.find? (fun c => c.id == xid && c.user == u) = none
    rw [List.find?_eq_none]
    intro x hx hcon
    simp only [Bool.and_eq_true, beq_iff_eq] at hcon
    exact hnone x hx hcon.1 hcon.2
  · intro hnone
    show s.subtasks.find? (fun st => st.id == xid && s.ownsTask st.task u) = none
    rw [List.find?_eq_none]
    intro x hx hcon
    simp only [Bool.and_eq_true, beq_iff_eq] at hcon
    exact absurd hcon.2 (by rw [hnone x hx hcon.1]; simp)
  · intro t ht
    have hp := List.mem_filter.mp
      (show t ∈ s.tasks.filter (fun t => t.user == u) from ht)
    exact beq_iff_eq.mp hp.2
  · intro habs
    simp [SubtaskRepository.create, habs]
  · intro hhas
    simp [SubtaskRepository.create, hhas, isOkE]

/-- Witness for the amended C1: acting user 2 against user 1's task store —
the non-owned task id 1 reads as None, yet subtask create on it succeeds. -/
theorem ownership_scoping_witness :
    TaskRepository.get_by_id ⟨some 2⟩ oneTaskStore 1 = none ∧
    isOkE (SubtaskRepository.create ⟨some 2⟩ oneTaskStore 1 { title := "x" }) = true :=
  ⟨(ownership_scoping 2 oneTaskStore 1 { title := "x" }).1 (by decide),
   (ownership_scoping 2 oneTaskStore 1 { title := "x" }).2.2.2.2.2.2 (by decide)⟩

/-! ### C9 -/

/-- C9 counterexample: with no acting user, create does not return an
empty/denied result.  TaskRepository.create and CategoryRepository.create
issue an INSERT without a user, which the non-nullable user column rejects —
the database raises IntegrityError (modelled by Except.error), i.e. the
operation throws; and SubtaskRepository.create, far from being denied,
silently succeeds on any existing task id. -/
theorem create_without_user_raises :
    TaskRepository.create ⟨none⟩ oneTaskStore { title := "x" } =
      Except.error DbError.integrityError ∧
    CategoryRepository.create ⟨none⟩ oneTaskStore { name := "c" } =
      Except.error DbError.integrityError ∧
    isOkE (SubtaskRepository.create ⟨none⟩ oneTaskStore 1 { title := "x" }) = true := by
  refine ⟨rfl, rfl, by decide⟩

/-- C9 amended: with no acting user every read, lookup and count fails closed
(empty list, None or zero) — but the creates do not: task and category
creation raise a database IntegrityError instead of returning a denied
result, and subtask creation succeeds unchecked whenever the task id exists. -/
theorem no_user_fails_closed (s : Store) (xid : Nat) (q : String) (a b : DateTime)
    (st : Status) (p : Priority) (cid : Nat) (d : TaskData) (cd : CategoryData)
    (sd : SubtaskData) :
    (s.hasTask xid = true → isOkE (SubtaskRepository.create ⟨none⟩ s xid sd) = true) ∧
    TaskRepository.get_all ⟨none⟩ s = [] ∧
    TaskRepository.get_by_id ⟨none⟩ s xid = none ∧
    TaskRepository.get_by_status ⟨none⟩ s st = [] ∧
    TaskRepository.get_by_priority ⟨none⟩ s p = [] ∧
    TaskRepository.get_by_category ⟨none⟩ s cid = [] ∧
    TaskRepository.get_by_date_range ⟨none⟩ s a b = [] ∧
    TaskRepository.search ⟨none⟩ s q = [] ∧
    TaskRepository.count ⟨none⟩ s = 0 ∧
    TaskRepository.count_by_status ⟨none⟩ s st = 0 ∧
    TaskRepository.count_by_category ⟨none⟩ s cid = 0 ∧
    CategoryRepository.get_all ⟨none⟩ s = [] ∧
    CategoryRepository.get_by_id ⟨none⟩ s cid = none ∧
    SubtaskRepository.get_by_task ⟨none⟩ s xid = [] ∧
    SubtaskRepository.get_by_id ⟨none⟩ s xid = none ∧
    TaskRepository.create ⟨none⟩ s d = Except.error DbError.integrityError ∧
    CategoryRepository.create ⟨none⟩ s cd = Except.error DbError.integrityError := by
  refine ⟨?_, rfl, rfl, rfl, rfl, rfl, rfl, rfl, rfl, rfl, rfl, rfl, rfl, rfl, rfl,
          rfl, rfl⟩
  intro hhas
  simp [SubtaskRepository.create, hhas, isOkE]

/-- Witness for the amended C9 at a concrete store holding one task. -/
theorem no_user_fails_closed_witness :
    oneTaskStore.hasTask 1 = true ∧
    isOkE (SubtaskRepository.create ⟨none⟩ oneTaskStore 1 { title := "x" }) = true :=
  ⟨by decide,
   (no_user_fails_closed oneTaskStore 1 "" ⟨2024, 1, 1, 0, 0, 0⟩ ⟨2024, 1, 2, 0, 0, 0⟩
      Status.pending Priority.low 1 { title := "x" } { name := "c" }
      { title := "x" }).1 (by decide)⟩

/-! ### C10 -/

/-- A store with one category (id 1, user 1) and one task referencing it. -/
def catStore : Store :=
  { tasks := [{ mkTask 1 Status.pending 1 with category := some 1 }],
    categories := [{ id := 1, name := "c", icon := "i", color := "#fff", user := 1 }],
    subtasks := [], nextTaskId := 2, nextCategoryId := 2, nextSubtaskId := 1 }

/-- C10: deleting a category the acting user owns reports success, keeps
every task in existence (same task count), rewrites each task that referenced
the category to the identical task with category=null (all other fields
unchanged), and leaves every other task untouched. -/
theorem category_delete_detaches (u cid : Nat) (s : Store) (c : Category)
    (h : CategoryRepository.get_by_id ⟨some u⟩ s cid = some c) :
    (CategoryService.delete_category ⟨⟨some u⟩⟩ s cid).1 = true ∧
    (CategoryService.delete_category ⟨⟨some u⟩⟩ s cid).2.tasks.length = s.tasks.length ∧
    (∀ t ∈ s.tasks, t.category = some cid →
      { t with category := none } ∈
        (CategoryService.delete_category ⟨⟨some u⟩⟩ s cid).2.tasks) ∧
    (∀ t ∈ s.tasks, t.category ≠ some cid →
      t ∈ (CategoryService.delete_category ⟨⟨some u⟩⟩ s cid).2.tasks) := by
  have hp := List.find?_some
    (show s.categories.find? (fun x => x.id == cid && x.user == u) = some c from h)
  simp only [Bool.and_eq_true, beq_iff_eq] at hp
  have hdel : CategoryService.delete_category ⟨⟨some u⟩⟩ s cid =
      CategoryRepository.delete ⟨some u⟩ s c := by
    unfold CategoryService.delete_category
    rw [h]
  refine ⟨by rw [hdel]; rfl, ?_, ?_, ?_⟩
  · rw [hdel]
    exact List.length_map _ _
  · intro t ht hc
    rw [hdel]
    exact List.mem_map.mpr ⟨t, ht, by simp [hc, hp.1]⟩
  · intro t ht hc
    rw [hdel]
    refine List.mem_map.mpr ⟨t, ht, ?_⟩
    rw [hp.1]
    simp only [beq_iff_eq]
    rw [if_neg hc]

/-- Witness for C10 at the concrete one-category store. -/
theorem category_delete_detaches_witness :
    (CategoryService.delete_category ⟨⟨some 1⟩⟩ catStore 1).1 = true ∧
    { mkTask 1 Status.pending 1 with category := none } ∈
      (CategoryService.delete_category ⟨⟨some 1⟩⟩ catStore 1).2.tasks :=
  ⟨(category_delete_detaches 1 1 catStore ⟨1, "c", "i", "#fff", 1⟩ (by decide)).1,
   (category_delete_detaches 1 1 catStore ⟨1, "c", "i", "#fff", 1⟩ (by decide)).2.2.1
     { mkTask 1 Status.pending 1 with category := some 1 } (by decide) (by decide)⟩

end Tasks
